import Mathlib

/-!
Verification of `mediainfo_video_profile/mediainfo_format_profile.py`.

The program scans a directory tree for `.mkv` files, asks the external
`mediainfo` tool for the video `Format_Profile` field of each file, and
reports files whose profile string is in a fixed target set.

Shallow embedding conventions:
* The behaviour of one `subprocess.run` invocation of `mediainfo` on a file
  is modelled by an oracle `run : String → RunOutcome` (per file path):
  either the process completed with a return code and captured stdout, or
  an exception was raised — the 30-second timeout
  (`subprocess.TimeoutExpired`), another `subprocess.SubprocessError`, or
  `FileNotFoundError` (the executable is unreachable).  The `except`
  clause in `get_format_profile` catches only the first two, so functions
  that can propagate an exception return a `PyResult`.
* `multiprocessing.Pool.map_async` is modelled faithfully to its CPython
  semantics: the task list is cut into chunks (chunk size computed by
  CPython's `divmod(len, workers*4)` formula), every chunk is mapped, and
  the results are reassembled in task order.
* The coordinator (`scan_directory` plus the `main` glue) is modelled as a
  pure function from an environment (directory validity, enumerated files,
  the mediainfo oracle, and interrupt flags for the two `KeyboardInterrupt`
  handlers in the source) to an outcome: exit behaviour, the list of lines
  printed to stdout, the list of lines printed to stderr, and the list of
  work items handed to the pool.
-/

namespace MediainfoFormatProfile

/-- The module-level constant `TARGET_PROFILES` (case-sensitive). -/
def TARGET_PROFILES : List String :=
  [ "Main 10@L5.1@High",
    "Main 10@L5@High",
    "Main 10@L5.2@High",
    "High 10@L5" ]

/-- The exception classes relevant to `get_format_profile`'s call of
`subprocess.run(["mediainfo", ...], timeout=30)`: the 30-second timeout
(`subprocess.TimeoutExpired`), another `subprocess.SubprocessError`, and
`FileNotFoundError` (an `OSError`: the `mediainfo` executable cannot be
found, e.g. it disappeared after the startup check). -/
inductive PyExc where
  | timeoutExpired
  | subprocessError
  | fileNotFoundError
deriving DecidableEq, Repr

/-- Possible outcomes of one `subprocess.run` invocation: normal
completion with a return code and captured stdout, or a raised
exception. -/
inductive RunOutcome where
  | completed (returncode : Int) (stdout : String)
  | raised (exc : PyExc)
deriving DecidableEq, Repr

/-- The `except (subprocess.TimeoutExpired, subprocess.SubprocessError)`
clause in `get_format_profile`: which exception classes it catches.
`FileNotFoundError` is an `OSError`, not a `SubprocessError`, so it is not
caught there. -/
def extractor_catches : PyExc → Bool
  | .timeoutExpired => true
  | .subprocessError => true
  | .fileNotFoundError => false

/-- Result of a modelled Python call: a returned value, or an exception
propagating out of it. -/
inductive PyResult (α : Type) where
  | ok (val : α)
  | raised (exc : PyExc)
deriving DecidableEq, Repr

/-- The returned value of a `PyResult`, when there is one. -/
def okVal : PyResult α → Option α
  | .ok v => some v
  | .raised _ => none

/-- Model of Python's `str.strip()` with no argument: remove leading and
trailing whitespace characters.  (Defined on the character list so that it
is kernel-computable; `Char.isWhitespace` covers space, tab, CR and LF,
which is what mediainfo output can contain.) -/
def strip (s : String) : String :=
  ⟨((s.data.dropWhile Char.isWhitespace).reverse.dropWhile
      Char.isWhitespace).reverse⟩

/-- Model of `get_format_profile`: on completion with return code 0 it
strips the captured stdout and returns it when non-empty (`return profile
if profile else None`); a non-zero return code or a caught exception falls
through to `return None`; an uncaught exception (`FileNotFoundError`)
propagates out of the function. -/
def get_format_profile (run : String → RunOutcome) (file_path : String) :
    PyResult (Option String) :=
  match run file_path with
  | .completed returncode stdout =>
    .ok (if returncode = 0 then
      let profile := strip stdout
      if profile = "" then none else some profile
    else none)
  | .raised e => if extractor_catches e then .ok none else .raised e

/-- The classification step of `process_file`, with the value of
`get_format_profile(file_path)` passed in explicitly: `None` gives no
record; a profile in `TARGET_PROFILES` gives `(file_path, profile)`; any
other profile gives no record.  The verbose flag in `args` only controls
diagnostic printing in the source and is ignored by the returned value. -/
def process_file_classify (profile : Option String) (args : String × Bool) :
    Option (String × String) :=
  let file_path := args.1
  match profile with
  | none => none
  | some p => if p ∈ TARGET_PROFILES then some (file_path, p) else none

/-- Model of `process_file`: extract the profile with `get_format_profile`,
then classify it; an exception propagating out of the extraction
propagates out of `process_file` too. -/
def process_file (run : String → RunOutcome) (args : String × Bool) :
    PyResult (Option (String × String)) :=
  match get_format_profile run args.1 with
  | .ok profile => .ok (process_file_classify profile args)
  | .raised e => .raised e

/-- Does the extraction for this file raise an exception that
`get_format_profile` does not catch? -/
def raises_uncaught (run : String → RunOutcome) (f : String) : Bool :=
  match run f with
  | .raised e => ! extractor_catches e
  | .completed _ _ => false

/-- Model of collecting `pool.map_async(...).get()`: if every task
returned a value, the value list is returned; if some task raised, the
exception is re-raised by `get()` (the model surfaces the first raising
task's exception; CPython surfaces the exception of whichever failing
chunk completes first, and the claims only depend on whether one is
raised at all). -/
def sequencePy : List (PyResult α) → PyResult (List α)
  | [] => .ok []
  | .ok a :: rest =>
      match sequencePy rest with
      | .ok vs => .ok (a :: vs)
      | .raised e => .raised e
  | .raised e :: _ => .raised e

/-- Cut a list into chunks of size `n + 1` (so the chunk size is always
positive): models the task chunking done by CPython's `Pool._map_async`. -/
def chunked (n : Nat) : List α → List (List α)
  | [] => []
  | x :: xs => (x :: xs.take n) :: chunked n (xs.drop n)
termination_by xs => xs.length
decreasing_by simp only [List.length_drop, List.length_cons]; omega

/-- CPython's chunk-size computation in `Pool._map_async` when `chunksize`
is `None`: `divmod(len(iterable), len(self._pool) * 4)`, rounded up, and 0
for an empty iterable. -/
def map_async_chunksize (numWorkers len : Nat) : Nat :=
  if len = 0 then 0
  else
    let q := len / (numWorkers * 4)
    let r := len % (numWorkers * 4)
    if r = 0 then q else q + 1

/-- Model of `pool.map_async(f, tasks).get()` for a pool of `numWorkers`
worker processes: the task list is cut into chunks, each chunk is mapped by
some worker, and the per-chunk results are reassembled in task order (the
`MapResult` object stores each chunk's result at the chunk's index, so the
collected list is in input order regardless of which worker ran which
chunk or in which order chunks finished). -/
def pool_map_async (f : α → β) (numWorkers : Nat) (tasks : List α) :
    List β :=
  ((chunked (map_async_chunksize numWorkers tasks.length - 1) tasks).map
    (List.map f)).flatten

/-- Environment of one `scan_directory` call: the facts about the world the
source queries (directory validity and readability, the enumerated `.mkv`
files in `rglob` order, the behaviour of `mediainfo` per file) plus two
flags saying whether a `KeyboardInterrupt` is delivered inside the
`rglob` listing or while waiting on the pool. -/
structure ScanEnv where
  isDir : Bool
  readable : Bool
  files : List String
  run : String → RunOutcome
  interruptDuringListing : Bool
  interruptDuringPool : Bool

/-- How a modelled invocation ends: `exited c` models `sys.exit(c)`;
`returned` models `scan_directory` returning normally, after which the
process terminates with exit status 0; `crashed e` models an uncaught
exception re-raised by `async_result.get()` aborting the run (the
interpreter then prints a traceback and exits with status 1). -/
inductive ExitResult where
  | exited (code : Nat)
  | returned
  | crashed (exc : PyExc)
deriving DecidableEq, Repr

/-- Observable outcome of a run: exit behaviour, lines printed to stdout by
the coordinator, lines printed to stderr, and the argument tuples handed to
the worker pool (empty when no pool is created). -/
structure RunResult where
  exit : ExitResult
  stdout : List String
  stderr : List String
  dispatched : List (String × Bool)
deriving Repr

/-- The header lines `scan_directory` prints before any per-file work. -/
def header_lines (directory : String) (verbose : Bool) (jobs : Nat) :
    List String :=
  ["Scanning directory (recursively): " ++ directory,
   "Using " ++ toString jobs ++ " parallel jobs"]
  ++ (if verbose then ["Verbose mode: showing all profiles"] else [])
  ++ [""]

/-- The per-match report lines (two lines per match, in match-list order). -/
def match_lines (ms : List (String × String)) : List String :=
  (ms.map (fun m =>
    ["MATCH: " ++ m.1, "    Format profile: " ++ m.2])).flatten

/-- The summary block printed after the match report. -/
def summary_lines (file_count match_count : Nat) : List String :=
  ["", "Scan complete:",
   "  Files scanned: " ++ toString file_count,
   "  Matches found: " ++ toString match_count]
  ++ (if match_count = 0 then
        ["  No matching MKV files found.",
         "  Tip: Use --verbose to see all profiles found"]
      else [])

/-- The interruption notice printed when `KeyboardInterrupt` arrives during
`rglob` file listing (the `\n` prefix is part of the printed string). -/
def listing_interrupt_notice : String :=
  "\nScan interrupted during file listing. Exiting..."

/-- The interruption notice printed when `KeyboardInterrupt` arrives while
waiting for the pool results. -/
def pool_interrupt_notice : String :=
  "\nScan interrupted by user (Ctrl+C). Exiting..."

/-- Does a stdout line equal one of the two interruption notices? -/
def is_interrupt_notice (line : String) : Bool :=
  line == listing_interrupt_notice || line == pool_interrupt_notice

/-- Model of `scan_directory(directory, verbose, num_jobs)`.  `num_jobs`
is `none` when the caller passed `None` (so `cpu_count()` — passed here as
`cpu_count` — is used).  Mirrors the source line by line: directory
checks, header printing, `rglob` listing (with its `KeyboardInterrupt`
handler), the zero-file early return, the pool phase (with its
`KeyboardInterrupt` handler), match filtering, match report and summary. -/
def scan_directory (env : ScanEnv) (directory : String) (verbose : Bool)
    (num_jobs : Option Nat) (cpu_count : Nat) : RunResult :=
  if ¬ env.isDir then
    { exit := .exited 1, stdout := [],
      stderr := ["Error: '" ++ directory ++ "' is not a valid directory."],
      dispatched := [] }
  else if ¬ env.readable then
    { exit := .exited 1, stdout := [],
      stderr := ["Error: Cannot read directory: '" ++ directory ++ "'"],
      dispatched := [] }
  else
    let jobs := num_jobs.getD cpu_count
    let header := header_lines directory verbose jobs
    if env.interruptDuringListing then
      { exit := .exited 130, stdout := header ++ [listing_interrupt_notice],
        stderr := [], dispatched := [] }
    else
      let mkv_files := env.files
      let file_count := mkv_files.length
      if file_count = 0 then
        { exit := .returned,
          stdout := header ++ ["No MKV files found in directory."],
          stderr := [], dispatched := [] }
      else
        let args := mkv_files.map (fun f => (f, verbose))
        if env.interruptDuringPool then
          { exit := .exited 130,
            stdout := header ++ [pool_interrupt_notice],
            stderr := [], dispatched := args }
        else
          match sequencePy (pool_map_async (process_file env.run) jobs args) with
          | .raised e =>
            { exit := .crashed e, stdout := header,
              stderr := [], dispatched := args }
          | .ok results =>
            let ms := results.filterMap id
            let match_count := ms.length
            { exit := .returned,
              stdout := header ++ match_lines ms
                ++ summary_lines file_count match_count,
              stderr := [], dispatched := args }

/-- Model of `check_mediainfo` composed with `scan_directory` as `main`
does: the `mediainfo --version` probe runs first and a failure is fatal
(`sys.exit(1)` with one stderr line) before `scan_directory` is entered. -/
def main_run (mediainfoOk : Bool) (env : ScanEnv) (directory : String)
    (verbose : Bool) (num_jobs : Option Nat) (cpu_count : Nat) : RunResult :=
  if ¬ mediainfoOk then
    { exit := .exited 1, stdout := [],
      stderr := ["Error: mediainfo command not found. Please install MediaInfo."],
      dispatched := [] }
  else
    scan_directory env directory verbose num_jobs cpu_count

/-- The matches a completed scan collects, as a function of the oracle, the
verbose flag, the worker count and the enumerated files (the `matches`
local of `scan_directory`, for a run in which no task raised). -/
def scan_matches (run : String → RunOutcome) (verbose : Bool) (jobs : Nat)
    (files : List String) : List (String × String) :=
  (pool_map_async (process_file run) jobs
    (files.map (fun f => (f, verbose)))).filterMap
    (fun r => (okVal r).bind id)

/-- Does the extraction for a file succeed with a value in
`TARGET_PROFILES`?  (The condition under which `process_file` produces a
Match Record.) -/
def extraction_matches (run : String → RunOutcome) (f : String) : Bool :=
  match get_format_profile run f with
  | .ok (some s) => decide (s ∈ TARGET_PROFILES)
  | .ok none => false
  | .raised _ => false


/-! ## Pool-model lemmas -/

/-- Flattening the chunks of a list gives back the list. -/
theorem chunked_flatten (n : Nat) : ∀ (xs : List α), (chunked n xs).flatten = xs
  | [] => by simp [chunked]
  | x :: xs => by
      rw [chunked]
      simp only [List.flatten_cons, chunked_flatten n (xs.drop n),
        List.cons_append, List.take_append_drop]
termination_by xs => xs.length
decreasing_by simp only [List.length_drop, List.length_cons]; omega

/-- Mapping chunkwise and flattening is mapping the whole list. -/
theorem chunked_map_flatten (f : α → β) (n : Nat) :
    ∀ (xs : List α), ((chunked n xs).map (List.map f)).flatten = xs.map f
  | [] => by simp [chunked]
  | x :: xs => by
      rw [chunked]
      simp only [List.map_cons, List.flatten_cons,
        chunked_map_flatten f n (xs.drop n), List.cons_append,
        ← List.map_append, List.take_append_drop]
termination_by xs => xs.length
decreasing_by simp only [List.length_drop, List.length_cons]; omega

/-- The chunked pool map computes exactly `List.map`, for every worker
count: which worker runs which chunk never changes the collected list. -/
theorem pool_map_async_eq_map (f : α → β) (w : Nat) (tasks : List α) :
    pool_map_async f w tasks = tasks.map f :=
  chunked_map_flatten f _ tasks

/-- Length of a `filterMap` counts the elements mapped to `some`. -/
theorem length_filterMap_eq_countP (p : α → Option β) :
    ∀ (l : List α), (l.filterMap p).length = l.countP (fun a => (p a).isSome)
  | [] => rfl
  | x :: xs => by
      rw [List.filterMap_cons, List.countP_cons]
      cases h : p x <;>
        simp [length_filterMap_eq_countP p xs, h]

/-- When `g` only ever returns a record whose first component is its
argument, the records of `files.filterMap g` carrying a given path are no
more numerous than the occurrences of that path among the files. -/
theorem match_count_per_file (g : String → Option (String × String))
    (hg : ∀ f r, g f = some r → r.1 = f) (f : String) :
    ∀ (files : List String),
    ((files.filterMap g).filter (fun m => m.1 == f)).length
      ≤ (files.filter (fun x => x == f)).length
  | [] => Nat.le_refl _
  | x :: xs => by
      have ih := match_count_per_file g hg f xs
      rw [List.filterMap_cons]
      cases h : g x with
      | none =>
          rw [List.filter_cons]
          by_cases hxf : (x == f) = true
          · simp only [hxf, if_true, List.length_cons]
            exact Nat.le_trans ih (Nat.le_succ _)
          · simp only [hxf, if_false]
            exact ih
      | some r =>
          have hr : r.1 = x := hg x r h
          rw [List.filter_cons, List.filter_cons, hr]
          by_cases hxf : (x == f) = true
          · simp only [hxf, if_true, List.length_cons]
            exact Nat.succ_le_succ ih
          · simp only [hxf, if_false]
            exact ih

/-! ## Helper lemmas about the extractor, classifier and scan -/

/-- A file whose extraction does not raise an uncaught exception gives an
ordinary value from `process_file`. -/
theorem process_file_okVal_isSome (run : String → RunOutcome) (f : String)
    (v : Bool) (h : raises_uncaught run f = false) :
    (okVal (process_file run (f, v))).isSome := by
  cases hr : run f with
  | completed rc out => simp [process_file, get_format_profile, hr, okVal]
  | raised e =>
      have hc : extractor_catches e = true := by
        simpa [raises_uncaught, hr] using h
      simp [process_file, get_format_profile, hr, hc, okVal]

/-- `sequencePy` returns the value list when every element is a value. -/
theorem sequencePy_ok_of_all_ok (l : List (PyResult α))
    (h : ∀ r ∈ l, (okVal r).isSome) :
    sequencePy l = .ok (l.filterMap okVal) := by
  induction l with
  | nil => rfl
  | cons x xs ih =>
      cases x with
      | ok a =>
          rw [sequencePy, ih (fun r hr => h r (List.mem_cons_of_mem _ hr))]
          simp [List.filterMap_cons, okVal]
      | raised e =>
          have hx := h _ (List.mem_cons_self _ _)
          simp [okVal] at hx

/-- A produced Match Record carries the path of the file it was produced
for. -/
theorem process_file_path (run : String → RunOutcome) (f : String) (v : Bool)
    (r : String × String)
    (h : (okVal (process_file run (f, v))).bind id = some r) : r.1 = f := by
  cases hg : get_format_profile run f with
  | raised e => simp [process_file, hg, okVal] at h
  | ok profile =>
      simp only [process_file, hg, okVal, Option.some_bind, id] at h
      cases profile with
      | none => simp [process_file_classify] at h
      | some s =>
          simp only [process_file_classify] at h
          by_cases hs : s ∈ TARGET_PROFILES
          · rw [if_pos hs] at h
            obtain rfl := (Option.some.inj h).symm
            rfl
          · rw [if_neg hs] at h
            exact absurd h (by simp)

/-- `process_file` produces a record exactly when the extraction matches. -/
theorem process_file_isSome (run : String → RunOutcome) (f : String)
    (v : Bool) :
    ((okVal (process_file run (f, v))).bind id).isSome
      = extraction_matches run f := by
  cases hg : get_format_profile run f with
  | raised e => simp [process_file, extraction_matches, hg, okVal]
  | ok profile =>
      cases profile with
      | none =>
          simp [process_file, extraction_matches, hg, okVal,
            process_file_classify]
      | some s =>
          by_cases hs : s ∈ TARGET_PROFILES <;>
            simp [process_file, extraction_matches, hg, okVal,
              process_file_classify, hs]

/-- The matches of a scan are the order-preserving `filterMap` of
`process_file` over the enumerated files, for every worker count. -/
theorem scan_matches_eq_filterMap (run : String → RunOutcome)
    (verbose : Bool) (jobs : Nat) (files : List String) :
    scan_matches run verbose jobs files
      = files.filterMap
          (fun f => (okVal (process_file run (f, verbose))).bind id) := by
  unfold scan_matches
  rw [pool_map_async_eq_map, List.filterMap_map, List.filterMap_map]
  rfl

/-- The outcome of a completed (uninterrupted, non-empty, exception-free)
scan: stdout laid out as header, match report, summary; a normal return;
and one dispatched work item per enumerated file. -/
theorem scan_directory_stdout (env : ScanEnv) (d : String) (verbose : Bool)
    (jobs : Option Nat) (cpu : Nat)
    (h₁ : env.isDir = true) (h₂ : env.readable = true)
    (h₃ : env.interruptDuringListing = false)
    (h₄ : env.interruptDuringPool = false) (h₅ : env.files ≠ [])
    (hok : ∀ f ∈ env.files, raises_uncaught env.run f = false) :
    (scan_directory env d verbose jobs cpu).stdout
      = header_lines d verbose (jobs.getD cpu)
        ++ match_lines (scan_matches env.run verbose (jobs.getD cpu) env.files)
        ++ summary_lines env.files.length
            (scan_matches env.run verbose (jobs.getD cpu) env.files).length
    ∧ (scan_directory env d verbose jobs cpu).exit = .returned
    ∧ (scan_directory env d verbose jobs cpu).dispatched
      = env.files.map (fun f => (f, verbose)) := by
  have hf : ¬ env.files.length = 0 := by
    simpa [List.length_eq_zero] using h₅
  have hpool : ∀ r ∈ pool_map_async (process_file env.run) (jobs.getD cpu)
      (env.files.map (fun f => (f, verbose))), (okVal r).isSome := by
    intro r hr
    rw [pool_map_async_eq_map, List.map_map, List.mem_map] at hr
    obtain ⟨f, hfm, rfl⟩ := hr
    exact process_file_okVal_isSome env.run f verbose (hok f hfm)
  have hseq := sequencePy_ok_of_all_ok _ hpool
  have hms : ((pool_map_async (process_file env.run) (jobs.getD cpu)
        (env.files.map (fun f => (f, verbose)))).filterMap
          okVal).filterMap id
      = scan_matches env.run verbose (jobs.getD cpu) env.files := by
    rw [List.filterMap_filterMap]
    rfl
  refine ⟨?_, ?_, ?_⟩ <;>
    simp [scan_directory, h₁, h₂, h₃, h₄, hf, hseq, hms]

/-! ## String disequality helpers (for the printed-output claims) -/

/-- Strings whose first characters differ are different. -/
theorem string_ne_of_head_ne (s t : String) (c₁ c₂ : Char)
    (h₁ : s.data.head? = some c₁) (h₂ : t.data.head? = some c₂)
    (hne : c₁ ≠ c₂) : s ≠ t := by
  intro h
  rw [h] at h₁
  exact hne (Option.some.inj (h₁.symm.trans h₂))

/-- A string with a first character is not the string lacking one. -/
theorem string_ne_of_head_none (s t : String) (c : Char)
    (h₁ : s.data.head? = none) (h₂ : t.data.head? = some c) : s ≠ t := by
  intro h
  rw [h, h₂] at h₁
  exact Option.noConfusion h₁

/-- Appending on the right keeps the first character. -/
theorem head_data_append (a d : String) (c : Char)
    (h : a.data.head? = some c) : (a ++ d).data.head? = some c := by
  rw [String.data_append, List.head?_append, h]
  rfl

/-- No string whose first character is not `S`, `U` or `V` is a header
line (the header lines start with those characters or are empty). -/
theorem header_lines_no_mem (d : String) (verbose : Bool) (jobs : Nat)
    (s : String) (c : Char) (hc : s.data.head? = some c)
    (hS : c ≠ 'S') (hU : c ≠ 'U') (hV : c ≠ 'V') :
    s ∉ header_lines d verbose jobs := by
  intro hmem
  have hS' : s ≠ "Scanning directory (recursively): " ++ d :=
    string_ne_of_head_ne s _ c 'S' hc
      (head_data_append "Scanning directory (recursively): " d 'S' rfl) hS
  have hU' : s ≠ "Using " ++ toString jobs ++ " parallel jobs" :=
    string_ne_of_head_ne s _ c 'U' hc
      (head_data_append ("Using " ++ toString jobs) " parallel jobs" 'U'
        (head_data_append "Using " (toString jobs) 'U' rfl)) hU
  have hV' : s ≠ "Verbose mode: showing all profiles" :=
    string_ne_of_head_ne s _ c 'V' hc rfl hV
  have hE : s ≠ "" := fun h => by
    rw [h] at hc
    exact Option.noConfusion hc
  cases verbose <;> simp [header_lines] at hmem <;> tauto

/-- No header line is one of the two interruption notices. -/
theorem header_lines_no_notice (d : String) (verbose : Bool) (jobs : Nat) :
    (header_lines d verbose jobs).filter is_interrupt_notice = [] := by
  rw [List.filter_eq_nil_iff]
  intro a ha hnot
  have : a = listing_interrupt_notice ∨ a = pool_interrupt_notice := by
    simpa [is_interrupt_notice, Bool.or_eq_true, beq_iff_eq] using hnot
  rcases this with rfl | rfl
  · exact header_lines_no_mem d verbose jobs listing_interrupt_notice '\n'
      rfl (by decide) (by decide) (by decide) ha
  · exact header_lines_no_mem d verbose jobs pool_interrupt_notice '\n'
      rfl (by decide) (by decide) (by decide) ha

/-! ## Claim theorems -/

/-- C1: `process_file` is the classification of the extraction result: an
absent extraction result yields no Match Record; an extracted profile that
is (by case-sensitive exact equality) a member of `TARGET_PROFILES` yields
the record `(path, profile)`; any profile outside the set — including
near-misses such as a target with a trailing space — yields no record. -/
theorem process_file_classification (path : String) (verbose : Bool) :
    (∀ run profile, get_format_profile run path = .ok profile →
        process_file run (path, verbose)
          = .ok (process_file_classify profile (path, verbose)))
    ∧ process_file_classify none (path, verbose) = none
    ∧ (∀ s, s ∈ TARGET_PROFILES →
        process_file_classify (some s) (path, verbose) = some (path, s))
    ∧ (∀ s, s ∉ TARGET_PROFILES →
        process_file_classify (some s) (path, verbose) = none) := by
  refine ⟨fun run profile h => ?_, rfl, fun s hs => ?_, fun s hs => ?_⟩
  · simp [process_file, h]
  · simp [process_file_classify, hs]
  · simp [process_file_classify, hs]

/-- Witness for C1: the exact target string matches; the same string with
a trailing space does not. -/
theorem process_file_classification_witness :
    process_file_classify (some "Main 10@L5.1@High") ("a.mkv", false)
      = some ("a.mkv", "Main 10@L5.1@High")
    ∧ process_file_classify (some "Main 10@L5.1@High ") ("a.mkv", false)
      = none :=
  ⟨(process_file_classification "a.mkv" false).2.2.1 _ (by decide),
   (process_file_classification "a.mkv" false).2.2.2 _ (by decide)⟩

/-- C2: `get_format_profile` returns the stripped stdout on zero exit
status with non-empty stripped output, and the absent marker on zero exit
status with empty stripped output, on non-zero exit status, and on
timeout. -/
theorem get_format_profile_spec (run : String → RunOutcome) (path : String) :
    (∀ out, run path = .completed 0 out → strip out ≠ "" →
        get_format_profile run path = .ok (some (strip out)))
    ∧ (∀ out, run path = .completed 0 out → strip out = "" →
        get_format_profile run path = .ok none)
    ∧ (∀ rc out, run path = .completed rc out → rc ≠ 0 →
        get_format_profile run path = .ok none)
    ∧ (run path = .raised .timeoutExpired →
        get_format_profile run path = .ok none) := by
  refine ⟨?_, ?_, ?_, ?_⟩ <;> intros <;>
    simp_all [get_format_profile, extractor_catches]

/-- Witness for C2: stdout with surrounding whitespace is stripped and
returned; whitespace-only stdout gives the absent marker. -/
theorem get_format_profile_spec_witness :
    get_format_profile (fun _ => .completed 0 " Main 10@L5.1@High\n") "v.mkv"
      = .ok (some "Main 10@L5.1@High")
    ∧ get_format_profile (fun _ => .completed 0 "\n") "w.mkv" = .ok none := by
  constructor
  · have h := (get_format_profile_spec
      (fun _ => .completed 0 " Main 10@L5.1@High\n") "v.mkv").1
      " Main 10@L5.1@High\n" rfl (by decide)
    rw [h]
    decide
  · exact (get_format_profile_spec (fun _ => .completed 0 "\n") "w.mkv").2.1
      "\n" rfl (by decide)

/-- C3 as written is refuted: an invocation failing because the external
tool is unreachable raises `FileNotFoundError`, which the `except` clause
of `get_format_profile` (limited to `subprocess` exceptions) does not
catch, so the extractor propagates the error instead of returning the
absent marker, and the scan of a directory containing such a file aborts
with an uncaught exception instead of completing. -/
theorem extraction_unreachable_counterexample :
    get_format_profile (fun _ => RunOutcome.raised PyExc.fileNotFoundError)
        "x.mkv"
      = PyResult.raised PyExc.fileNotFoundError
    ∧ get_format_profile (fun _ => RunOutcome.raised PyExc.fileNotFoundError)
        "x.mkv" ≠ PyResult.ok none
    ∧ (scan_directory
        ⟨true, true, ["x.mkv"],
          fun _ => RunOutcome.raised PyExc.fileNotFoundError, false, false⟩
        "/media" false (some 2) 2).exit
      = ExitResult.crashed PyExc.fileNotFoundError := by
  refine ⟨rfl, by decide, ?_⟩
  have hmap := pool_map_async_eq_map
    (process_file (fun _ => RunOutcome.raised PyExc.fileNotFoundError))
    2 [("x.mkv", false)]
  simp [scan_directory, hmap, sequencePy, process_file, get_format_profile,
    extractor_catches]

/-- C3 amended: every failure the extractor anticipates — the 30-second
timeout, any other `subprocess` error, and a non-zero exit status — makes
the Extractor return the absent marker; `process_file` then returns no
record, exactly as for a success with empty output; and a scan whose
preconditions hold, which is not interrupted and in which no file raises
an uncaught exception always completes normally. -/
theorem extraction_failure_swallowed (run : String → RunOutcome)
    (path : String)
    (hfail : run path = .raised .timeoutExpired ∨
      run path = .raised .subprocessError ∨
      ∃ rc out, run path = .completed rc out ∧ rc ≠ 0) :
    get_format_profile run path = .ok none
    ∧ (∀ verbose, process_file run (path, verbose) = .ok none
        ∧ process_file run (path, verbose)
          = process_file (fun _ => .completed 0 "") (path, verbose))
    ∧ (∀ (env : ScanEnv) d verbose jobs cpu, env.isDir = true →
        env.readable = true → env.interruptDuringListing = false →
        env.interruptDuringPool = false →
        (∀ f ∈ env.files, raises_uncaught env.run f = false) →
        (scan_directory env d verbose jobs cpu).exit = .returned) := by
  have habs : get_format_profile run path = .ok none := by
    rcases hfail with h | h | ⟨rc, out, h, hrc⟩
    · simp [get_format_profile, h, extractor_catches]
    · simp [get_format_profile, h, extractor_catches]
    · simp [get_format_profile, h, hrc]
  refine ⟨habs, fun verbose => ?_,
    fun env d verbose jobs cpu h₁ h₂ h₃ h₄ hok => ?_⟩
  · constructor
    · simp [process_file, habs, process_file_classify]
    · have hdef : process_file run (path, verbose)
          = match get_format_profile run path with
            | .ok profile => .ok (process_file_classify profile
                (path, verbose))
            | .raised e => .raised e := rfl
      rw [hdef, habs]
      rfl
  · by_cases hfe : env.files = []
    · simp [scan_directory, h₁, h₂, h₃, hfe]
    · exact (scan_directory_stdout env d verbose jobs cpu h₁ h₂ h₃ h₄
        hfe hok).2.1

/-- Witness for the amended C3: a timed-out invocation yields the absent
marker and no record. -/
theorem extraction_failure_swallowed_witness :
    get_format_profile
        (fun _ => RunOutcome.raised PyExc.timeoutExpired) "x.mkv" = .ok none
    ∧ process_file (fun _ => RunOutcome.raised PyExc.timeoutExpired)
        ("x.mkv", false) = .ok none := by
  have h := extraction_failure_swallowed
    (fun _ => RunOutcome.raised PyExc.timeoutExpired) "x.mkv" (Or.inl rfl)
  exact ⟨h.1, (h.2.1 false).1⟩

/-- C4: each candidate file yields at most one Match Record, the collected
match list has exactly one record per file whose extraction succeeded with
a value in `TARGET_PROFILES`, and the reported counts are that size and
the number of enumerated candidate files. -/
theorem scan_match_counts (env : ScanEnv) (d : String) (verbose : Bool)
    (jobs : Option Nat) (cpu : Nat)
    (h₁ : env.isDir = true) (h₂ : env.readable = true)
    (h₃ : env.interruptDuringListing = false)
    (h₄ : env.interruptDuringPool = false) (h₅ : env.files ≠ [])
    (hok : ∀ f ∈ env.files, raises_uncaught env.run f = false) :
    (scan_matches env.run verbose (jobs.getD cpu) env.files).length
      = env.files.countP (extraction_matches env.run)
    ∧ ("  Files scanned: " ++ toString env.files.length)
        ∈ (scan_directory env d verbose jobs cpu).stdout
    ∧ ("  Matches found: " ++ toString
          (scan_matches env.run verbose (jobs.getD cpu) env.files).length)
        ∈ (scan_directory env d verbose jobs cpu).stdout
    ∧ ∀ f, ((scan_matches env.run verbose (jobs.getD cpu) env.files).filter
          (fun m => m.1 == f)).length
        ≤ (env.files.filter (fun x => x == f)).length := by
  have hms := scan_matches_eq_filterMap env.run verbose (jobs.getD cpu)
    env.files
  have hst := scan_directory_stdout env d verbose jobs cpu h₁ h₂ h₃ h₄ h₅ hok
  refine ⟨?_, ?_, ?_, ?_⟩
  · rw [hms, length_filterMap_eq_countP]
    exact List.countP_congr (fun f _ => by
      rw [process_file_isSome env.run f verbose])
  · rw [hst.1]
    simp [summary_lines]
  · rw [hst.1]
    simp [summary_lines]
  · intro f
    rw [hms]
    exact match_count_per_file _
      (fun g r hr => process_file_path env.run g verbose r hr) f env.files

/-- Witness for C4 at a concrete scan: two files, one matching profile. -/
theorem scan_match_counts_witness :
    (scan_matches
        (fun f => if f = "a.mkv" then .completed 0 "Main 10@L5@High"
          else .completed 0 "Main@L4@Main")
        false 2 ["a.mkv", "b.mkv"]).length
      = (["a.mkv", "b.mkv"] : List String).countP
          (extraction_matches
            (fun f => if f = "a.mkv" then .completed 0 "Main 10@L5@High"
              else .completed 0 "Main@L4@Main")) := by
  exact (scan_match_counts
    ⟨true, true, ["a.mkv", "b.mkv"],
      fun f => if f = "a.mkv" then .completed 0 "Main 10@L5@High"
        else .completed 0 "Main@L4@Main", false, false⟩
    "/media" false (some 2) 2 rfl rfl rfl rfl (by decide) (by decide)).1

/-- C5: a failed precondition (missing mediainfo, invalid directory, or an
unreadable directory) is fatal: one stderr line, exit status 1, nothing on
stdout and no work dispatched. -/
theorem precondition_failure_fatal (mediainfoOk : Bool) (env : ScanEnv)
    (directory : String) (verbose : Bool) (num_jobs : Option Nat)
    (cpu_count : Nat)
    (hfail : mediainfoOk = false ∨ env.isDir = false ∨
      env.readable = false) :
    (main_run mediainfoOk env directory verbose num_jobs cpu_count).exit
      = .exited 1
    ∧ (main_run mediainfoOk env directory verbose num_jobs
        cpu_count).stderr.length = 1
    ∧ (main_run mediainfoOk env directory verbose num_jobs
        cpu_count).dispatched = []
    ∧ (main_run mediainfoOk env directory verbose num_jobs
        cpu_count).stdout = [] := by
  rcases hfail with h | h | h
  · simp [main_run, h]
  · by_cases hm : mediainfoOk
    · simp [main_run, scan_directory, hm, h]
    · simp [main_run, hm]
  · by_cases hm : mediainfoOk
    · by_cases hd : env.isDir
      · simp [main_run, scan_directory, hm, hd, h]
      · simp [main_run, scan_directory, hm, hd]
    · simp [main_run, hm]

/-- Witness for C5: a root that is not a directory. -/
theorem precondition_failure_fatal_witness :
    (main_run true
      ⟨false, true, [], fun _ => .raised PyExc.timeoutExpired, false, false⟩
      "/not/a/dir" false none 4).exit = .exited 1
    ∧ (main_run true
        ⟨false, true, [], fun _ => .raised PyExc.timeoutExpired, false, false⟩
        "/not/a/dir" false none 4).stderr.length = 1
    ∧ (main_run true
        ⟨false, true, [], fun _ => .raised PyExc.timeoutExpired, false, false⟩
        "/not/a/dir" false none 4).dispatched = []
    ∧ (main_run true
        ⟨false, true, [], fun _ => .raised PyExc.timeoutExpired, false, false⟩
        "/not/a/dir" false none 4).stdout = [] :=
  precondition_failure_fatal true
    ⟨false, true, [], fun _ => .raised PyExc.timeoutExpired, false, false⟩
    "/not/a/dir" false none 4 (Or.inr (Or.inl rfl))

/-- C8: the collected Match Record list and the number of per-file results
do not depend on the worker count. -/
theorem scan_worker_count_independent (run : String → RunOutcome)
    (verbose : Bool) (files : List String) (j₁ j₂ : Nat)
    (h₁ : 0 < j₁) (h₂ : 0 < j₂) :
    scan_matches run verbose j₁ files = scan_matches run verbose j₂ files
    ∧ ∀ j, (pool_map_async (process_file run) j
        (files.map (fun f => (f, verbose)))).length = files.length := by
  refine ⟨?_, fun j => ?_⟩
  · rw [scan_matches_eq_filterMap, scan_matches_eq_filterMap]
  · rw [pool_map_async_eq_map, List.length_map, List.length_map]

/-- Witness for C8 at worker counts 1 and 8. -/
theorem scan_worker_count_independent_witness :
    scan_matches (fun _ => RunOutcome.completed 0 "Main 10@L5@High") false 1
        ["a.mkv", "b.mkv"]
      = scan_matches (fun _ => RunOutcome.completed 0 "Main 10@L5@High")
          false 8 ["a.mkv", "b.mkv"] :=
  (scan_worker_count_independent
    (fun _ => RunOutcome.completed 0 "Main 10@L5@High") false
    ["a.mkv", "b.mkv"] 1 8 (by decide) (by decide)).1

/-- C10: the match list of a completed scan is the order-preserving
`filterMap` of the classification over the files in enumeration order, and
the match report prints exactly those records in that order. -/
theorem scan_preserves_enumeration_order (env : ScanEnv) (d : String)
    (verbose : Bool) (jobs : Option Nat) (cpu : Nat)
    (h₁ : env.isDir = true) (h₂ : env.readable = true)
    (h₃ : env.interruptDuringListing = false)
    (h₄ : env.interruptDuringPool = false) (h₅ : env.files ≠ [])
    (hok : ∀ f ∈ env.files, raises_uncaught env.run f = false) :
    scan_matches env.run verbose (jobs.getD cpu) env.files
      = env.files.filterMap
          (fun f => (okVal (process_file env.run (f, verbose))).bind id)
    ∧ (scan_directory env d verbose jobs cpu).stdout
      = header_lines d verbose (jobs.getD cpu)
        ++ match_lines
            (env.files.filterMap
              (fun f => (okVal (process_file env.run (f, verbose))).bind id))
        ++ summary_lines env.files.length
            (env.files.filterMap
              (fun f =>
                (okVal (process_file env.run (f, verbose))).bind id)).length := by
  have hms := scan_matches_eq_filterMap env.run verbose (jobs.getD cpu)
    env.files
  have hst := scan_directory_stdout env d verbose jobs cpu h₁ h₂ h₃ h₄ h₅ hok
  exact ⟨hms, by rw [hst.1, hms]⟩

/-- Witness for C10: two matching files are reported in enumeration
order. -/
theorem scan_preserves_enumeration_order_witness :
    scan_matches (fun _ => RunOutcome.completed 0 "High 10@L5") true 3
        ["b.mkv", "a.mkv"]
      = (["b.mkv", "a.mkv"] : List String).filterMap
          (fun f => (okVal (process_file
            (fun _ => RunOutcome.completed 0 "High 10@L5") (f, true))).bind
              id) :=
  (scan_preserves_enumeration_order
    ⟨true, true, ["b.mkv", "a.mkv"],
      fun _ => RunOutcome.completed 0 "High 10@L5", false, false⟩
    "/media" true (some 3) 3 rfl rfl rfl rfl (by decide) (by decide)).1

/-- C7: the verbose flag only drives diagnostic printing; the value
returned by `process_file` is the same for verbose and quiet runs. -/
theorem process_file_verbose_independent (run : String → RunOutcome)
    (path : String) (v₁ v₂ : Bool) :
    process_file run (path, v₁) = process_file run (path, v₂) := by
  cases h : get_format_profile run path with
  | raised e => simp [process_file, h]
  | ok profile =>
      cases profile <;> simp [process_file, process_file_classify, h]

/-- C9: when the interrupt arrives during file listing, or during the pool
phase of a non-empty scan, the run exits with status 130, exactly one
interruption notice appears on stdout, and no `MATCH:` line is printed. -/
theorem interrupt_single_notice (env : ScanEnv) (d : String)
    (verbose : Bool) (jobs : Option Nat) (cpu : Nat)
    (h₁ : env.isDir = true) (h₂ : env.readable = true)
    (hint : env.interruptDuringListing = true ∨
      (env.interruptDuringListing = false ∧ env.files ≠ [] ∧
        env.interruptDuringPool = true)) :
    (scan_directory env d verbose jobs cpu).exit = .exited 130
    ∧ ((scan_directory env d verbose jobs cpu).stdout.filter
        is_interrupt_notice).length = 1
    ∧ ∀ p, ("MATCH: " ++ p)
        ∉ (scan_directory env d verbose jobs cpu).stdout := by
  have hone : ∀ notice : String, is_interrupt_notice notice = true →
      ((header_lines d verbose (jobs.getD cpu) ++ [notice]).filter
        is_interrupt_notice).length = 1 := by
    intro notice hn
    rw [List.filter_append, header_lines_no_notice]
    simp [List.filter, hn]
  have hnomem : ∀ (notice : String), notice.data.head? = some '\n' →
      ∀ p, ("MATCH: " ++ p)
        ∉ header_lines d verbose (jobs.getD cpu) ++ [notice] := by
    intro notice hn p hmem
    rcases List.mem_append.mp hmem with hmem | hmem
    · exact header_lines_no_mem d verbose _ _ 'M'
        (head_data_append "MATCH: " p 'M' rfl) (by decide) (by decide)
        (by decide) hmem
    · have : ("MATCH: " ++ p) = notice := by simpa using hmem
      exact string_ne_of_head_ne _ _ 'M' '\n'
        (head_data_append "MATCH: " p 'M' rfl) hn (by decide) this
  rcases hint with h | ⟨hl, hf, hp⟩
  · have hst : scan_directory env d verbose jobs cpu
        = { exit := .exited 130,
            stdout := header_lines d verbose (jobs.getD cpu)
              ++ [listing_interrupt_notice],
            stderr := [], dispatched := [] } := by
      simp [scan_directory, h₁, h₂, h]
    rw [hst]
    exact ⟨rfl, hone _ (by decide), hnomem _ rfl⟩
  · have hf' : ¬ env.files.length = 0 := by
      simpa [List.length_eq_zero] using hf
    have hst : scan_directory env d verbose jobs cpu
        = { exit := .exited 130,
            stdout := header_lines d verbose (jobs.getD cpu)
              ++ [pool_interrupt_notice],
            stderr := [],
            dispatched := env.files.map (fun f => (f, verbose)) } := by
      simp [scan_directory, h₁, h₂, hl, hf', hp]
    rw [hst]
    exact ⟨rfl, hone _ (by decide), hnomem _ rfl⟩

/-- Witness for C9: an interrupt during the pool phase of a one-file
scan. -/
theorem interrupt_single_notice_witness :
    (scan_directory
        ⟨true, true, ["a.mkv"],
          fun _ => .raised PyExc.timeoutExpired, false, true⟩
        "/media" false (some 2) 2).exit = .exited 130
    ∧ ((scan_directory
          ⟨true, true, ["a.mkv"],
            fun _ => .raised PyExc.timeoutExpired, false, true⟩
          "/media" false (some 2) 2).stdout.filter
        is_interrupt_notice).length = 1 := by
  have h := interrupt_single_notice
    ⟨true, true, ["a.mkv"], fun _ => .raised PyExc.timeoutExpired,
      false, true⟩
    "/media" false (some 2) 2 rfl rfl
    (Or.inr ⟨rfl, by decide, rfl⟩)
  exact ⟨h.1, h.2.1⟩

/-- C6 as written is refuted: with zero candidate files the program prints
the no-files message and returns without printing the summary block, so
no `Files scanned: 0` or `Matches found: 0` line appears on stdout. -/
theorem no_files_summary_counterexample :
    (scan_directory
        ⟨true, true, [], fun _ => .raised PyExc.timeoutExpired, false, false⟩
        "/media" false (some 4) 4).exit = .returned
    ∧ "No MKV files found in directory."
        ∈ (scan_directory
            ⟨true, true, [],
              fun _ => .raised PyExc.timeoutExpired, false, false⟩
            "/media" false (some 4) 4).stdout
    ∧ "  Files scanned: 0"
        ∉ (scan_directory
            ⟨true, true, [],
              fun _ => .raised PyExc.timeoutExpired, false, false⟩
            "/media" false (some 4) 4).stdout
    ∧ "  Matches found: 0"
        ∉ (scan_directory
            ⟨true, true, [],
              fun _ => .raised PyExc.timeoutExpired, false, false⟩
            "/media" false (some 4) 4).stdout := by
  decide

/-- C6 amended: with zero candidate files, the scan reports the no-files
message, dispatches no work, terminates normally (process exit status 0),
and prints no `Files scanned:` summary line. -/
theorem no_files_report (env : ScanEnv) (d : String) (verbose : Bool)
    (jobs : Option Nat) (cpu : Nat)
    (h₁ : env.isDir = true) (h₂ : env.readable = true)
    (h₃ : env.interruptDuringListing = false) (h₅ : env.files = []) :
    (scan_directory env d verbose jobs cpu).exit = .returned
    ∧ "No MKV files found in directory."
        ∈ (scan_directory env d verbose jobs cpu).stdout
    ∧ (scan_directory env d verbose jobs cpu).dispatched = []
    ∧ ∀ n : Nat, ("  Files scanned: " ++ toString n)
        ∉ (scan_directory env d verbose jobs cpu).stdout := by
  have hst : scan_directory env d verbose jobs cpu
      = { exit := .returned,
          stdout := header_lines d verbose (jobs.getD cpu)
            ++ ["No MKV files found in directory."],
          stderr := [], dispatched := [] } := by
    simp [scan_directory, h₁, h₂, h₃, h₅]
  rw [hst]
  refine ⟨rfl, by simp, rfl, fun n hmem => ?_⟩
  rcases List.mem_append.mp hmem with hmem | hmem
  · exact header_lines_no_mem d verbose _ _ ' '
      (head_data_append "  Files scanned: " (toString n) ' ' rfl)
      (by decide) (by decide) (by decide) hmem
  · have : ("  Files scanned: " ++ toString n)
        = "No MKV files found in directory." := by simpa using hmem
    exact string_ne_of_head_ne ("  Files scanned: " ++ toString n)
      "No MKV files found in directory." ' ' 'N'
      (head_data_append "  Files scanned: " (toString n) ' ' rfl) rfl
      (by decide) this

/-- Witness for the amended C6 at a concrete empty directory. -/
theorem no_files_report_witness :
    (scan_directory
        ⟨true, true, [],
          fun _ => .raised PyExc.subprocessError, false, false⟩
        "/empty" true none 8).exit = .returned
    ∧ "No MKV files found in directory."
        ∈ (scan_directory
            ⟨true, true, [],
              fun _ => .raised PyExc.subprocessError, false, false⟩
            "/empty" true none 8).stdout := by
  have h := no_files_report
    ⟨true, true, [], fun _ => .raised PyExc.subprocessError, false, false⟩
    "/empty" true none 8 rfl rfl rfl rfl
  exact ⟨h.1, h.2.1⟩

end MediainfoFormatProfile
